import Mathlib

/-!
Shallow embedding of `src/hardware/cc3200/libraries/WiFi/WiFiUdp.cpp`
(class `WiFiUDP`, the spec's `DatagramSocket`).

The object's mutable members become a state record; each C++ method becomes a
Lean function from state (plus the results of the external SimpleLink calls,
passed in as oracle arguments) to return value and new state.  External side
effects that the claims mention (the `sl_SendTo` call made by `endPacket`) are
returned as an explicit event record.  Machine integers are modelled as
`Nat`/`Int`: every field stays far below any overflow boundary in reachable
states, and the defensive `int` subtraction in `available` is kept as an `Int`
computation.  The byte-order conversions `sl_Htonl`/`sl_Htons` are pure
representation changes and are modelled as the identity.
-/

namespace WiFiUDP

/-- Modelled from the spec: the sentinel for "no socket / unbound"
(`NO_SOCKET_AVAIL`) is defined in a header that is not under `src/`; the spec
calls it the "unavailable" sentinel.  Its only relevant property is that it
differs from every handle the transport hands out. -/
def NO_SOCKET_AVAIL : Int := 255

/-- Modelled from the spec: the receive-buffer capacity
(`UDP_RX_PACKET_MAX_SIZE`, the spec's `C_rx`) is defined in the missing header
`WiFiUdp.h`.  The claims are uniform in its value. -/
def UDP_RX_PACKET_MAX_SIZE : Nat := 255

/-- Modelled from the spec: the transmit-buffer capacity
(`UDP_TX_PACKET_MAX_SIZE`, the spec's `C_tx`) is defined in the missing header
`WiFiUdp.h`.  The claims are uniform in its value. -/
def UDP_TX_PACKET_MAX_SIZE : Nat := 255

/-- The mutable members of a `WiFiUDP` object.  Buffers are total functions
from index to byte value (the arrays have fixed capacity; indices past the
fill level are the `memset` zeroes or stale bytes, exactly as in the C++). -/
structure State where
  _sock : Int
  _socketHandle : Int
  _port : Nat
  rx_buf : Nat → Nat
  tx_buf : Nat → Nat
  rx_currentIndex : Nat
  rx_fillLevel : Nat
  tx_fillLevel : Nat
  _sendIP : Nat
  _sendPort : Nat
  _remoteIP : Nat
  _remotePort : Nat

/-- `WiFiUDP::WiFiUDP()` (lines 32-45): zeroes both buffers and the rx/tx
bookkeeping and the remote-sender fields, sets `_sock` to the sentinel.
`_socketHandle`, `_port`, `_sendIP` and `_sendPort` are NOT initialized by the
constructor; they enter as arbitrary (garbage) parameters. -/
def construct (garbageHandle : Int) (garbagePort garbageSendIP garbageSendPort : Nat) : State where
  _sock := NO_SOCKET_AVAIL
  _socketHandle := garbageHandle
  _port := garbagePort
  rx_buf := fun _ => 0
  tx_buf := fun _ => 0
  rx_currentIndex := 0
  rx_fillLevel := 0
  tx_fillLevel := 0
  _sendIP := garbageSendIP
  _sendPort := garbageSendPort
  _remoteIP := 0
  _remotePort := 0

/-- Results of the three external calls `begin` makes:
`WiFiClass::getSocket()`, `sl_Socket(...)` and `sl_Bind(...)`. -/
structure BeginOracle where
  getSocketResult : Int
  slSocketResult : Int
  slBindResult : Int

/-- `WiFiUDP::begin(uint16_t)` (lines 47-88).  Each failure path returns 0
before any member is written, so the state is unchanged there (the `sl_Close`
on the bind-failure path and the slot-table write
`WiFiClass::_server_port[sock] = port` are external effects with no bearing on
the claims). -/
def begin (s : State) (port : Nat) (o : BeginOracle) : Nat × State :=
  if o.getSocketResult = NO_SOCKET_AVAIL then (0, s)
  else if o.slSocketResult < 0 then (0, s)
  else if o.slBindResult < 0 then (0, s)
  else (1, { s with _socketHandle := o.slSocketResult, _port := port,
                    _sock := o.getSocketResult })

/-- `WiFiUDP::available()` (lines 91-103): the signed subtraction and the
defensive negative check are kept exactly. -/
def available (s : State) : Int :=
  let bytesLeft : Int := (s.rx_fillLevel : Int) - (s.rx_currentIndex : Int)
  if bytesLeft < 0 then 0 else bytesLeft

/-- `WiFiUDP::flush()` (lines 315-323): zeroes `rx_buf` and resets both
receive indices. -/
def flush (s : State) : State :=
  { s with rx_buf := fun _ => 0, rx_currentIndex := 0, rx_fillLevel := 0 }

/-- `WiFiUDP::stop()` (lines 105-114): `flush()`, close the handle (external),
clear the slot-table entry (external), set `_sock` to the sentinel.  Note that
`_socketHandle` is NOT reset. -/
def stop (s : State) : State :=
  { flush s with _sock := NO_SOCKET_AVAIL }

/-- `WiFiUDP::beginPacket(IPAddress, uint16_t)` (lines 134-159).  Fails (0)
when `_sock` is the sentinel; otherwise records the destination, zeroes
`tx_buf`, and resets `tx_fillLevel` — and also `rx_currentIndex`, which the
source resets on line 154 inside the block commented
"reset all tx buffer indicators". -/
def beginPacket (s : State) (ip : Nat) (port : Nat) : Int × State :=
  if s._sock = NO_SOCKET_AVAIL then (0, s)
  else (1, { s with _sendIP := ip, _sendPort := port,
                    tx_buf := fun _ => 0,
                    rx_currentIndex := 0,
                    tx_fillLevel := 0 })

/-- `WiFiUDP::write(const uint8_t*, size_t)` (lines 195-212): clamp the size
to the remaining capacity, `memcpy` into `tx_buf` at `tx_fillLevel`, advance
the fill level, return the (possibly clamped) size. -/
def write (s : State) (buffer : Nat → Nat) (size : Nat) : Nat × State :=
  let size' := if s.tx_fillLevel + size > UDP_TX_PACKET_MAX_SIZE
               then UDP_TX_PACKET_MAX_SIZE - s.tx_fillLevel
               else size
  (size',
   { s with tx_buf := fun i =>
              if s.tx_fillLevel ≤ i ∧ i < s.tx_fillLevel + size'
              then buffer (i - s.tx_fillLevel) else s.tx_buf i,
            tx_fillLevel := s.tx_fillLevel + size' })

/-- `WiFiUDP::write(uint8_t)` (lines 187-193): delegates to the bulk form
with size 1. -/
def write1 (s : State) (b : Nat) : Nat × State :=
  write s (fun _ => b) 1

/-- The `sl_SendTo` call `endPacket` performs: handle, payload bytes, and
destination, as passed to the transport. -/
structure SendToCall where
  handle : Int
  payload : List Nat
  ip : Nat
  port : Nat
deriving DecidableEq

/-- `WiFiUDP::endPacket()` (lines 161-185): unconditionally calls
`sl_SendTo(_socketHandle, tx_buf, tx_fillLevel, ..., (sendIP, sendPort))`.
If the result is negative, return 0 with the state untouched; otherwise zero
`tx_buf`, reset `tx_fillLevel`, and return 1.  The oracle argument is the
`sl_SendTo` return value; the call itself is the third component. -/
def endPacket (s : State) (slSendToResult : Int) : Int × State × SendToCall :=
  let call : SendToCall :=
    { handle := s._socketHandle,
      payload := (List.range s.tx_fillLevel).map s.tx_buf,
      ip := s._sendIP, port := s._sendPort }
  if slSendToResult < 0 then (0, s, call)
  else (1, { s with tx_buf := fun _ => 0, tx_fillLevel := 0 }, call)

/-- Results of the external calls `parsePacket` makes: the `sl_Select` return
value, the `sl_RecvFrom` return value, the bytes the transport deposited in
`rx_buf`, and the sender address/port it wrote into the address out-parameter
(which the source reads back even when `sl_RecvFrom` fails). -/
structure ParseOracle where
  slSelectResult : Int
  recvResult : Int
  recvPayload : Nat → Nat
  senderIP : Nat
  senderPort : Nat

/-- `WiFiUDP::parsePacket()` (lines 219-275).  Guard on
`_socketHandle == NO_SOCKET_AVAIL`; poll with `sl_Select` and return 0
untouched when the result is ≤ 0; otherwise `sl_RecvFrom` into `rx_buf`,
update `_remoteIP`/`_remotePort` from the address out-parameter
unconditionally, then on a negative byte count set `rx_fillLevel = 0` and
return 0 (leaving `rx_currentIndex` alone), and on a nonnegative count set
`rx_currentIndex = 0`, `rx_fillLevel = bytes` and return `bytes`. -/
def parsePacket (s : State) (o : ParseOracle) : Int × State :=
  if s._socketHandle = NO_SOCKET_AVAIL then (0, s)
  else if o.slSelectResult ≤ 0 then (0, s)
  else
    let bytes := o.recvResult
    let rx_buf' : Nat → Nat :=
      if bytes < 0 then s.rx_buf
      else fun i => if i < bytes.toNat then o.recvPayload i else s.rx_buf i
    let s1 := { s with rx_buf := rx_buf',
                       _remoteIP := o.senderIP, _remotePort := o.senderPort }
    if bytes < 0 then (0, { s1 with rx_fillLevel := 0 })
    else (bytes, { s1 with rx_currentIndex := 0, rx_fillLevel := bytes.toNat })

/-- `WiFiUDP::read()` (lines 277-290): 0 when the cursor has reached the fill
level, else the byte under the cursor, advancing the cursor. -/
def read (s : State) : Nat × State :=
  if s.rx_currentIndex ≥ s.rx_fillLevel then (0, s)
  else (s.rx_buf s.rx_currentIndex, { s with rx_currentIndex := s.rx_currentIndex + 1 })

/-- The `while` loop of `WiFiUDP::read(unsigned char*, size_t)` (line 298):
`while ((bytesCopied <= len) && (rx_currentIndex < rx_fillLevel))`.  The bytes
written into the caller's buffer are accumulated in order in `out`
(`buffer[bytesCopied] = rx_buf[rx_currentIndex]`), so `out.length` is the
number of bytes stored into the caller's buffer. -/
def readMulti (s : State) (len : Nat) (bytesCopied : Nat) (out : List Nat) :
    Nat × List Nat × State :=
  if _h : bytesCopied ≤ len ∧ s.rx_currentIndex < s.rx_fillLevel then
    readMulti { s with rx_currentIndex := s.rx_currentIndex + 1 } len
      (bytesCopied + 1) (out ++ [s.rx_buf s.rx_currentIndex])
  else
    (bytesCopied, out, s)
termination_by s.rx_fillLevel - s.rx_currentIndex
decreasing_by omega

/-- `WiFiUDP::read(unsigned char*, size_t)` (lines 292-305): run the loop
from `bytesCopied = 0` and return the count (together with the bytes written
and the final state). -/
def readBuf (s : State) (len : Nat) : Nat × List Nat × State :=
  readMulti s len 0 []

/-- `WiFiUDP::peek()` (lines 307-313): the byte under the cursor, no bounds
check, cursor not advanced. -/
def peek (s : State) : Nat :=
  s.rx_buf s.rx_currentIndex

/-- `WiFiUDP::remoteIP()` (lines 325-331). -/
def remoteIP (s : State) : Nat := s._remoteIP

/-- `WiFiUDP::remotePort()` (lines 333-339). -/
def remotePort (s : State) : Nat := s._remotePort

/-- One invocation of a `WiFiUDP` method, with the external-call results it
consumes bundled in.  This is the alphabet of the object's state machine. -/
inductive Op where
  | opBegin (port : Nat) (o : BeginOracle)
  | opStop
  | opBeginPacket (ip port : Nat)
  | opWrite (buffer : Nat → Nat) (size : Nat)
  | opWrite1 (b : Nat)
  | opEndPacket (slSendToResult : Int)
  | opParsePacket (o : ParseOracle)
  | opRead
  | opReadBuf (len : Nat)
  | opPeek
  | opAvailable
  | opFlush

/-- State transition of one method call (return values discarded). -/
def stepOp (s : State) : Op → State
  | .opBegin port o => (begin s port o).2
  | .opStop => stop s
  | .opBeginPacket ip port => (beginPacket s ip port).2
  | .opWrite buffer size => (write s buffer size).2
  | .opWrite1 b => (write1 s b).2
  | .opEndPacket r => (endPacket s r).2.1
  | .opParsePacket o => (parsePacket s o).2
  | .opRead => (read s).2
  | .opReadBuf len => (readBuf s len).2.2
  | .opPeek => s
  | .opAvailable => s
  | .opFlush => flush s

/-- The transport contract from the spec's external-interface section:
`sl_RecvFrom(handle, buf, maxLen, ...)` deposits at most `maxLen` bytes, so
its return value never exceeds the `UDP_RX_PACKET_MAX_SIZE` the source passes
as `maxLen`.  Every other method call is unconstrained. -/
def OpOk : Op → Prop
  | .opParsePacket o => o.recvResult ≤ (UDP_RX_PACKET_MAX_SIZE : Int)
  | _ => True

/-- States reachable from a freshly constructed object (with arbitrary garbage
in the uninitialized members) through method calls whose external-call results
respect the transport contract. -/
inductive Reachable : State → Prop where
  | start (gh : Int) (gp gip gport : Nat) : Reachable (construct gh gp gip gport)
  | next (s : State) (op : Op) : Reachable s → OpOk op → Reachable (stepOp s op)

/-- A receive-buffer state mid-drain: 5-byte packet (`rx_buf = [1,2,3,4,5,...]`,
`rx_fillLevel = 5`), cursor at 0, object bound (`_sock = 0`, handle 7). -/
def packetReadyState : State :=
  ⟨0, 7, 8000, fun i => i + 1, fun _ => 0, 0, 5, 0, 0, 0, 0, 0⟩

/-- Same packet, 3 bytes already consumed (`rx_currentIndex = 3`). -/
def midDrainState : State :=
  ⟨0, 7, 8000, fun i => i + 1, fun _ => 0, 3, 5, 0, 0, 0, 0, 0⟩

/-- A call trace: a successful `begin`, a successful 10-byte `parsePacket`,
four single-byte `read`s, then a `parsePacket` whose `sl_RecvFrom` errors
(`-1`).  Every oracle value respects the transport contract. -/
def drainThenErrorTrace : List Op :=
  [Op.opBegin 8000 ⟨0, 7, 0⟩,
   Op.opParsePacket ⟨1, 10, fun i => i + 1, 42, 99⟩,
   Op.opRead, Op.opRead, Op.opRead, Op.opRead,
   Op.opParsePacket ⟨1, -1, fun _ => 0, 42, 99⟩]

/-- The state the trace above ends in. -/
def drainThenErrorState : State :=
  drainThenErrorTrace.foldl stepOp (construct 0 0 0 0)

end WiFiUDP

namespace WiFiUDP

/-! ## Helper lemmas -/

/-- The `read(buffer, len)` loop never changes `rx_fillLevel`, and leaves the
cursor no larger than `max` of its starting value and the fill level (it only
advances the cursor while it is strictly below the fill level). -/
theorem readMulti_rx_bounds (n : Nat) :
    ∀ (s : State) (len bc : Nat) (out : List Nat),
      s.rx_fillLevel - s.rx_currentIndex ≤ n →
      ((readMulti s len bc out).2.2.rx_fillLevel = s.rx_fillLevel ∧
       (readMulti s len bc out).2.2.rx_currentIndex
         ≤ max s.rx_currentIndex s.rx_fillLevel) := by
  induction n with
  | zero =>
    intro s len bc out hn
    rw [readMulti]
    split
    · rename_i hc
      exact absurd hc.2 (by omega)
    · exact ⟨rfl, le_max_left _ _⟩
  | succ n ih =>
    intro s len bc out hn
    rw [readMulti]
    split
    · rename_i hc
      have h2 := ih { s with rx_currentIndex := s.rx_currentIndex + 1 } len (bc + 1)
        (out ++ [s.rx_buf s.rx_currentIndex]) (by simp; omega)
      simp only at h2
      refine ⟨h2.1, ?_⟩
      have := h2.2
      simp only at this
      omega
    · exact ⟨rfl, le_max_left _ _⟩

/-- The rx-index bound that is actually inductive for this code: both indices
stay at most the receive capacity (but nothing keeps the cursor below the fill
level, see the parsePacket error path). -/
def RxBounded (s : State) : Prop :=
  s.rx_currentIndex ≤ UDP_RX_PACKET_MAX_SIZE ∧ s.rx_fillLevel ≤ UDP_RX_PACKET_MAX_SIZE

theorem stepOp_preserves_rxBounded (s : State) (op : Op) (hok : OpOk op)
    (h : RxBounded s) : RxBounded (stepOp s op) := by
  obtain ⟨h1, h2⟩ := h
  cases op with
  | opBegin port o =>
    simp only [stepOp, begin]
    split_ifs <;> exact ⟨h1, h2⟩
  | opStop => exact ⟨by simp [stepOp, stop, flush], by simp [stepOp, stop, flush]⟩
  | opBeginPacket ip port =>
    simp only [stepOp, beginPacket]
    split_ifs <;> constructor <;> simp_all [RxBounded]
  | opWrite buffer size => exact ⟨h1, h2⟩
  | opWrite1 b => exact ⟨h1, h2⟩
  | opEndPacket r =>
    simp only [stepOp, endPacket]
    split_ifs <;> exact ⟨h1, h2⟩
  | opParsePacket o =>
    simp only [stepOp, parsePacket]
    split_ifs with hh hs hb
    · exact ⟨h1, h2⟩
    · exact ⟨h1, h2⟩
    · exact ⟨h1, by simp⟩
    · refine ⟨by simp, ?_⟩
      simp only [OpOk] at hok
      simp only [UDP_RX_PACKET_MAX_SIZE] at hok ⊢
      omega
  | opRead =>
    simp only [stepOp, read]
    split_ifs with hc
    · exact ⟨h1, h2⟩
    · refine ⟨?_, h2⟩
      simp only []
      omega
  | opReadBuf len =>
    have hb := readMulti_rx_bounds (s.rx_fillLevel - s.rx_currentIndex) s len 0 []
      (Nat.le_refl _)
    simp only [stepOp, readBuf]
    exact ⟨by omega, by omega⟩
  | opPeek => exact ⟨h1, h2⟩
  | opAvailable => exact ⟨h1, h2⟩
  | opFlush => exact ⟨by simp [stepOp, flush], by simp [stepOp, flush]⟩

/-- Folding a trace of contract-respecting calls over a reachable state lands
in a reachable state. -/
theorem reachable_foldl (s : State) (ops : List Op) (hs : Reachable s)
    (hok : ∀ op ∈ ops, OpOk op) : Reachable (ops.foldl stepOp s) := by
  induction ops generalizing s with
  | nil => exact hs
  | cons op rest ih =>
    exact ih (stepOp s op) (Reachable.next s op hs (hok op (by simp)))
      (fun o ho => hok o (by simp [ho]))

/-! ## Claim theorems -/

/-- C1 (counterexample): after a successful `begin` followed by `stop`, the
claim says `write` must report failure (0); in the code `write` has no bound
check at all and accepts the byte, returning 1. -/
theorem stop_then_write_returns_one :
    (begin (construct 0 0 0 0) 8000 ⟨0, 7, 0⟩).1 = 1 ∧
    (write1 (stop (begin (construct 0 0 0 0) 8000 ⟨0, 7, 0⟩).2) 65).1 = 1 := by
  exact ⟨by decide, by decide⟩

/-- C1 (amended): after `stop()`, `beginPacket` reports failure (0) and leaves
the state untouched, because `stop` sets `_sock` to the sentinel; but `write`
is unguarded and still accepts a byte (returning 1 whenever the transmit
buffer has room), and `parsePacket` is guarded only by `_socketHandle`, which
`stop` does not reset — it returns 0 after `stop` only when the poll on the
stale handle reports nothing. -/
theorem stop_guards_beginPacket_only (s : State) (ip p b : Nat) (o : ParseOracle)
    (hfill : s.tx_fillLevel < UDP_TX_PACKET_MAX_SIZE)
    (hsel : o.slSelectResult ≤ 0) :
    (stop s)._sock = NO_SOCKET_AVAIL ∧
    beginPacket (stop s) ip p = (0, stop s) ∧
    (stop s)._socketHandle = s._socketHandle ∧
    (write1 (stop s) b).1 = 1 ∧
    parsePacket (stop s) o = (0, stop s) := by
  refine ⟨rfl, ?_, rfl, ?_, ?_⟩
  · simp [beginPacket, stop, flush]
  · have hc : ¬ (s.tx_fillLevel + 1 > UDP_TX_PACKET_MAX_SIZE) := by omega
    simp [write1, write, stop, flush, hc]
  · by_cases hh : (stop s)._socketHandle = NO_SOCKET_AVAIL <;>
      simp [parsePacket, hh, hsel]

/-- Witness for the amended C1 theorem at a concrete state and oracle. -/
theorem stop_guards_beginPacket_only_witness :
    ((construct 3 0 0 0).tx_fillLevel < UDP_TX_PACKET_MAX_SIZE ∧
     ((⟨0, 5, fun _ => 0, 1, 2⟩ : ParseOracle).slSelectResult ≤ 0)) ∧
    ((stop (construct 3 0 0 0))._sock = NO_SOCKET_AVAIL ∧
     beginPacket (stop (construct 3 0 0 0)) 10 20 = (0, stop (construct 3 0 0 0)) ∧
     (stop (construct 3 0 0 0))._socketHandle = (construct 3 0 0 0)._socketHandle ∧
     (write1 (stop (construct 3 0 0 0)) 7).1 = 1 ∧
     parsePacket (stop (construct 3 0 0 0)) ⟨0, 5, fun _ => 0, 1, 2⟩
       = (0, stop (construct 3 0 0 0))) :=
  ⟨⟨by decide, by decide⟩,
   stop_guards_beginPacket_only (construct 3 0 0 0) 10 20 7 ⟨0, 5, fun _ => 0, 1, 2⟩
     (by decide) (by decide)⟩

/-- C2 (counterexample): the state reached by begin, a successful 10-byte
parsePacket, four reads, and an erroring parsePacket is reachable under the
transport contract, yet has `rx_currentIndex = 4 > rx_fillLevel = 0`: the
error path of `parsePacket` resets the fill level but not the cursor, so the
claimed invariant `rxCursor ≤ rxFillLevel` does not hold in every reachable
state. -/
theorem reachable_cursor_exceeds_fillLevel :
    Reachable drainThenErrorState ∧
    drainThenErrorState.rx_fillLevel < drainThenErrorState.rx_currentIndex := by
  constructor
  · refine reachable_foldl _ _ (Reachable.start 0 0 0 0) ?_
    intro op hop
    fin_cases hop <;> norm_num [OpOk, UDP_RX_PACKET_MAX_SIZE]
  · decide

/-- C2 (amended): in every reachable state (under the transport contract that
`sl_RecvFrom` returns at most the `UDP_RX_PACKET_MAX_SIZE` it is passed), both
`rx_currentIndex` and `rx_fillLevel` stay at most the receive capacity; the
stronger `rxCursor ≤ rxFillLevel` is not an invariant (parsePacket's error
path resets the fill level without resetting the cursor). -/
theorem reachable_rx_indices_bounded (s : State) (h : Reachable s) :
    s.rx_currentIndex ≤ UDP_RX_PACKET_MAX_SIZE ∧
    s.rx_fillLevel ≤ UDP_RX_PACKET_MAX_SIZE := by
  induction h with
  | start gh gp gip gport => exact ⟨by simp [construct], by simp [construct]⟩
  | next s op hreach hok ih => exact stepOp_preserves_rxBounded s op hok ih

/-- Witness for the amended C2 theorem at the freshly constructed state. -/
theorem reachable_rx_indices_bounded_witness :
    Reachable (construct 0 0 0 0) ∧
    ((construct 0 0 0 0).rx_currentIndex ≤ UDP_RX_PACKET_MAX_SIZE ∧
     (construct 0 0 0 0).rx_fillLevel ≤ UDP_RX_PACKET_MAX_SIZE) :=
  ⟨Reachable.start 0 0 0 0,
   reachable_rx_indices_bounded (construct 0 0 0 0) (Reachable.start 0 0 0 0)⟩

/-- C3 (code bug, evaluated at the failing input): on a 5-byte packet with the
cursor at 0, `read(buffer, 2)` copies 3 bytes into the caller's buffer
(indices 0, 1 and 2 — one past a 2-byte buffer) and returns 3: the loop bound
`bytesCopied <= len` admits one iteration too many, contradicting the claim
that at most `n` bytes are written and at most `n` is returned. -/
theorem read_two_copies_three_bytes :
    (readBuf packetReadyState 2).1 = 3 ∧
    (readBuf packetReadyState 2).2.1 = [1, 2, 3] ∧
    2 < (readBuf packetReadyState 2).1 := by
  refine ⟨?_, ?_, ?_⟩ <;> simp [readBuf, packetReadyState, readMulti]

/-- C4: assuming the transmit-buffer invariant `tx_fillLevel ≤ C_tx`, `write`
accepts exactly `min(requested, C_tx - tx_fillLevel)` bytes, returns that
count (it never signals failure — the count is the only output), appends them
to `tx_buf` starting at `tx_fillLevel` leaving every other byte unchanged, and
the new fill level never exceeds `C_tx`. -/
theorem write_appends_and_truncates (s : State) (buffer : Nat → Nat) (size : Nat)
    (h : s.tx_fillLevel ≤ UDP_TX_PACKET_MAX_SIZE) :
    (write s buffer size).1 = min size (UDP_TX_PACKET_MAX_SIZE - s.tx_fillLevel) ∧
    ((write s buffer size).2).tx_fillLevel
      = s.tx_fillLevel + min size (UDP_TX_PACKET_MAX_SIZE - s.tx_fillLevel) ∧
    ((write s buffer size).2).tx_fillLevel ≤ UDP_TX_PACKET_MAX_SIZE ∧
    ((write s buffer size).2).tx_buf = (fun i =>
      if s.tx_fillLevel ≤ i ∧
         i < s.tx_fillLevel + min size (UDP_TX_PACKET_MAX_SIZE - s.tx_fillLevel)
      then buffer (i - s.tx_fillLevel) else s.tx_buf i) := by
  have hmin : (if s.tx_fillLevel + size > UDP_TX_PACKET_MAX_SIZE
               then UDP_TX_PACKET_MAX_SIZE - s.tx_fillLevel else size)
            = min size (UDP_TX_PACKET_MAX_SIZE - s.tx_fillLevel) := by
    split <;> omega
  refine ⟨?_, ?_, ?_, ?_⟩
  · simp [write, hmin]
  · simp [write, hmin]
  · simp only [write, hmin]
    omega
  · simp [write, hmin]

/-- Witness for the C4 theorem: a state with 251 of 255 bytes filled accepts
only 4 of 10 requested bytes. -/
theorem write_appends_and_truncates_witness :
    ({ construct 0 0 0 0 with tx_fillLevel := 251 } : State).tx_fillLevel
      ≤ UDP_TX_PACKET_MAX_SIZE ∧
    ((write { construct 0 0 0 0 with tx_fillLevel := 251 } (fun i => i) 10).1
      = min 10 (UDP_TX_PACKET_MAX_SIZE - ({ construct 0 0 0 0 with tx_fillLevel := 251 } : State).tx_fillLevel) ∧
     ((write { construct 0 0 0 0 with tx_fillLevel := 251 } (fun i => i) 10).2).tx_fillLevel
      = ({ construct 0 0 0 0 with tx_fillLevel := 251 } : State).tx_fillLevel
        + min 10 (UDP_TX_PACKET_MAX_SIZE - ({ construct 0 0 0 0 with tx_fillLevel := 251 } : State).tx_fillLevel) ∧
     ((write { construct 0 0 0 0 with tx_fillLevel := 251 } (fun i => i) 10).2).tx_fillLevel
      ≤ UDP_TX_PACKET_MAX_SIZE ∧
     ((write { construct 0 0 0 0 with tx_fillLevel := 251 } (fun i => i) 10).2).tx_buf
      = (fun i =>
        if ({ construct 0 0 0 0 with tx_fillLevel := 251 } : State).tx_fillLevel ≤ i ∧
           i < ({ construct 0 0 0 0 with tx_fillLevel := 251 } : State).tx_fillLevel
             + min 10 (UDP_TX_PACKET_MAX_SIZE - ({ construct 0 0 0 0 with tx_fillLevel := 251 } : State).tx_fillLevel)
        then (fun i => i) (i - ({ construct 0 0 0 0 with tx_fillLevel := 251 } : State).tx_fillLevel)
        else ({ construct 0 0 0 0 with tx_fillLevel := 251 } : State).tx_buf i)) :=
  ⟨by decide,
   write_appends_and_truncates { construct 0 0 0 0 with tx_fillLevel := 251 }
     (fun i => i) 10 (by decide)⟩

/-- C5: `endPacket` hands the transport exactly the first `tx_fillLevel` bytes
of `tx_buf`, addressed to the recorded destination, over `_socketHandle`; it
returns 0 exactly when `sl_SendTo` returns a negative result, in which case
the state (`tx_fillLevel` included) is untouched; on success it returns 1 and
resets `tx_fillLevel` to 0 (zeroing `tx_buf`). -/
theorem endPacket_sends_and_resets (s : State) (r : Int) :
    (endPacket s r).2.2 = ⟨s._socketHandle, (List.range s.tx_fillLevel).map s.tx_buf,
                           s._sendIP, s._sendPort⟩ ∧
    (endPacket s r).1 = (if r < 0 then 0 else 1) ∧
    (endPacket s r).2.1 = (if r < 0 then s
                           else { s with tx_buf := fun _ => 0, tx_fillLevel := 0 }) := by
  by_cases hr : r < 0 <;> simp [endPacket, hr]

/-- C6: when the poll reports neither readability nor error (`sl_Select`
returns 0, a timeout), `parsePacket` returns 0 with the whole state — in
particular all receive-side state — unchanged. -/
theorem parsePacket_timeout_noop (s : State) (o : ParseOracle)
    (ht : o.slSelectResult = 0) :
    parsePacket s o = (0, s) := by
  by_cases hh : s._socketHandle = NO_SOCKET_AVAIL <;> simp [parsePacket, hh, ht]

/-- Witness for the C6 theorem at a concrete state and a timed-out oracle. -/
theorem parsePacket_timeout_noop_witness :
    ((⟨0, 9, fun _ => 0, 1, 2⟩ : ParseOracle).slSelectResult = 0) ∧
    parsePacket midDrainState ⟨0, 9, fun _ => 0, 1, 2⟩ = (0, midDrainState) :=
  ⟨rfl, parsePacket_timeout_noop midDrainState ⟨0, 9, fun _ => 0, 1, 2⟩ rfl⟩

/-- C7: whenever `parsePacket` reaches the `sl_RecvFrom` step (bound object,
positive poll result), it stores the receive call's output address into
`_remoteIP`/`_remotePort` unconditionally — also when the byte count is
negative — and then: on a negative count it sets `rx_fillLevel` to 0 (leaving
`rx_currentIndex` alone) and returns 0; on a nonnegative count it sets
`rx_currentIndex` to 0, `rx_fillLevel` to the count, and returns the count. -/
theorem parsePacket_receive_step_behavior (s : State) (o : ParseOracle)
    (hh : s._socketHandle ≠ NO_SOCKET_AVAIL) (hs : 0 < o.slSelectResult) :
    ((parsePacket s o).2)._remoteIP = o.senderIP ∧
    ((parsePacket s o).2)._remotePort = o.senderPort ∧
    (parsePacket s o).1 = (if o.recvResult < 0 then 0 else o.recvResult) ∧
    ((parsePacket s o).2).rx_fillLevel
      = (if o.recvResult < 0 then 0 else o.recvResult.toNat) ∧
    ((parsePacket s o).2).rx_currentIndex
      = (if o.recvResult < 0 then s.rx_currentIndex else 0) := by
  have hs' : ¬ o.slSelectResult ≤ 0 := by omega
  by_cases hb : o.recvResult < 0 <;> simp [parsePacket, hh, hs', hb]

/-- Witness for the C7 theorem: a bound state, a ready poll, and an erroring
receive (`-1`) — the sender address is stored even on the error path. -/
theorem parsePacket_receive_step_behavior_witness :
    (midDrainState._socketHandle ≠ NO_SOCKET_AVAIL ∧
     (0 : Int) < (⟨1, -1, fun _ => 0, 42, 99⟩ : ParseOracle).slSelectResult) ∧
    (((parsePacket midDrainState ⟨1, -1, fun _ => 0, 42, 99⟩).2)._remoteIP = 42 ∧
     ((parsePacket midDrainState ⟨1, -1, fun _ => 0, 42, 99⟩).2)._remotePort = 99 ∧
     (parsePacket midDrainState ⟨1, -1, fun _ => 0, 42, 99⟩).1
       = (if (-1 : Int) < 0 then 0 else (-1 : Int)) ∧
     ((parsePacket midDrainState ⟨1, -1, fun _ => 0, 42, 99⟩).2).rx_fillLevel
       = (if (-1 : Int) < 0 then 0 else (-1 : Int).toNat) ∧
     ((parsePacket midDrainState ⟨1, -1, fun _ => 0, 42, 99⟩).2).rx_currentIndex
       = (if (-1 : Int) < 0 then midDrainState.rx_currentIndex else 0)) :=
  ⟨⟨by decide, by decide⟩,
   parsePacket_receive_step_behavior midDrainState ⟨1, -1, fun _ => 0, 42, 99⟩
     (by decide) (by decide)⟩

/-- C8 (code bug, evaluated at the failing input): on a bound object with
`rx_currentIndex = 3`, `beginPacket` succeeds but sets `rx_currentIndex` to 0
(source line 154, inside the block commented "reset all tx buffer
indicators"), contradicting the claim that the fresh-packet reset touches only
transmit-side state. -/
theorem beginPacket_resets_rx_currentIndex :
    midDrainState.rx_currentIndex = 3 ∧
    (beginPacket midDrainState 1234 9000).1 = 1 ∧
    ((beginPacket midDrainState 1234 9000).2).rx_currentIndex = 0 := by
  exact ⟨rfl, by decide, by decide⟩

/-- C9: from every state, `flush` resets both receive indices to 0, so
`available` immediately after `flush` returns 0 regardless of the prior
state. -/
theorem flush_clears_rx_and_available_zero (s : State) :
    (flush s).rx_currentIndex = 0 ∧ (flush s).rx_fillLevel = 0 ∧
    available (flush s) = 0 := by
  exact ⟨rfl, rfl, by simp [available, flush]⟩

/-- C10: `endPacket` performs no bound check: called on a stopped object it
still issues the `sl_SendTo` with the stale `_socketHandle` left behind by
`stop` and the pre-stop transmit buffer, and it does not fail fast — its
result is 1 whenever the transport call succeeds. -/
theorem endPacket_unguarded_after_stop (s : State) (r : Int) :
    ((endPacket (stop s) r).2.2).handle = s._socketHandle ∧
    ((endPacket (stop s) r).2.2).payload = (List.range s.tx_fillLevel).map s.tx_buf ∧
    (endPacket (stop s) r).1 = (if r < 0 then 0 else 1) := by
  by_cases hr : r < 0 <;> simp [endPacket, stop, flush, hr]

end WiFiUDP
